import Mathlib

/-!
Shallow embedding of the wwtrail backend's weather pipeline
(`src/services/weather.service.ts`) and competition admin service
(`src/services/competition-admin.service.ts`), with theorems settling the
spec's claims about them.

Conventions of the embedding:
* TS `number` values that the code treats arithmetically are modelled as `ℚ`
  (the code performs only +, /, comparisons, `Math.round`, `Math.min/max`
  on them); `NaN` arising from `parseFloat` is modelled as `none` of
  `Option ℚ`.
* Nullable hourly entries are `Option ℚ`.
* `throw new AppError(msg, status)` becomes `Except.error ⟨msg, status⟩`.
* Timestamps (`Date`) are modelled as integers; only their ordering is used
  by the code under verification.
-/

namespace WWTrail

/-- JS `Math.round`: round half toward positive infinity, i.e. `⌊x + 1/2⌋`. -/
def jsRound (x : ℚ) : ℤ := ⌊x + 1/2⌋

/-- `Math.round(x * 10) / 10` — round to one decimal, as used for
temperature, precipitation and wind speed in `getHistoricalWeather`. -/
def round1 (x : ℚ) : ℚ := (jsRound (x * 10) : ℚ) / 10

/-- `WeatherService.calculateAverage`: drop `null` entries; `0` when none
remain, else the arithmetic mean of the remaining values.
(`values.filter(v => v !== null)` is `List.filterMap id`.) -/
def calculateAverage (values : List (Option ℚ)) : ℚ :=
  let validValues := values.filterMap id
  if validValues.length = 0 then 0
  else validValues.sum / (validValues.length : ℚ)

/-- The `{ code, text }` object returned by `determineCondition`. -/
structure ConditionResult where
  code : String
  text : String
deriving DecidableEq, Repr

/-- `WeatherService.determineCondition`: the five-way classifier on total
precipitation and average cloud cover. -/
def determineCondition (precipitation cloudCover : ℚ) : ConditionResult :=
  if 10 < precipitation then ⟨"rainy", "Lluvioso"⟩
  else if 0 < precipitation then ⟨"light_rain", "Lluvia ligera"⟩
  else if 75 < cloudCover then ⟨"cloudy", "Nublado"⟩
  else if 30 < cloudCover then ⟨"partly_cloudy", "Parcialmente nublado"⟩
  else ⟨"sunny", "Soleado"⟩

/-- `WeatherService.getWindDirection`: `directions[Math.round(degrees/45) % 8]`.
JS `%` is the truncated remainder (`Int.tmod`), which keeps the dividend's
sign; a negative index would read `directions[negative] = undefined` in JS,
modelled here by the string `"undefined"`. -/
def getWindDirection (degrees : ℚ) : String :=
  let directions := ["N", "NE", "E", "SE", "S", "SW", "W", "NW"]
  let index := Int.tmod (jsRound (degrees / 45)) 8
  if 0 ≤ index then directions.getD index.toNat "undefined" else "undefined"

/-- Minimum of a list, as in `Math.min(...values)` applied to a non-empty
spread. (`Math.min()` of an empty spread is `Infinity`, which `ℚ` cannot
represent; the `[]` case returns `0` and is never relied upon — every
theorem about it assumes the filtered list is non-empty, which is also the
spec's stated precondition.) -/
def listMin : List ℚ → ℚ
  | [] => 0
  | x :: xs => xs.foldl min x

/-- Maximum of a list, as in `Math.max(...values)`; see `listMin` for the
empty case. -/
def listMax : List ℚ → ℚ
  | [] => 0
  | x :: xs => xs.foldl max x

/-- `temperature` sub-object of `EditionWeather`. -/
structure Temperature where
  avg : ℚ
  min : ℚ
  max : ℚ
deriving DecidableEq, Repr

/-- `wind` sub-object of `EditionWeather`. -/
structure Wind where
  speed : ℚ
  direction : ℤ
  directionText : String
deriving DecidableEq, Repr

/-- The `EditionWeather` interface of `weather.service.ts`. -/
structure EditionWeather where
  date : String
  temperature : Temperature
  condition : String
  conditionText : String
  precipitation : ℚ
  wind : Wind
  humidity : ℤ
  pressure : ℤ
  cloudCover : ℤ
  fetchedAt : String
deriving DecidableEq, Repr

/-- The parallel hourly arrays returned by the Open-Meteo archive API
(`response.data.hourly`), one entry per hour, `null` for missing
observations. -/
structure HourlyData where
  temperature_2m : List (Option ℚ)
  relative_humidity_2m : List (Option ℚ)
  precipitation : List (Option ℚ)
  surface_pressure : List (Option ℚ)
  cloud_cover : List (Option ℚ)
  wind_speed_10m : List (Option ℚ)
  wind_direction_10m : List (Option ℚ)
deriving DecidableEq, Repr

/-- The pure aggregation core of `WeatherService.getHistoricalWeather`
(lines after the HTTP response is received): reduce one day's hourly arrays
to an `EditionWeather`. `date` and `fetchedAt` are the strings the source
fills in from the request date and `new Date().toISOString()`.
`val || 0` on a nullable number is `Option.getD · 0` (`0 || 0` is `0`). -/
def aggregateHourly (hourly : HourlyData) (date fetchedAt : String) : EditionWeather :=
  let avgTemp := calculateAverage hourly.temperature_2m
  let minTemp := listMin (hourly.temperature_2m.filterMap id)
  let maxTemp := listMax (hourly.temperature_2m.filterMap id)
  let avgHumidity := calculateAverage hourly.relative_humidity_2m
  let totalPrecip := (hourly.precipitation.map (fun v => v.getD 0)).sum
  let avgPressure := calculateAverage hourly.surface_pressure
  let avgCloudCover := calculateAverage hourly.cloud_cover
  let avgWindSpeed := calculateAverage hourly.wind_speed_10m
  let avgWindDirection := calculateAverage hourly.wind_direction_10m
  let condition := determineCondition totalPrecip avgCloudCover
  { date := date
    temperature :=
      { avg := round1 avgTemp
        min := round1 minTemp
        max := round1 maxTemp }
    condition := condition.code
    conditionText := condition.text
    precipitation := round1 totalPrecip
    wind :=
      { speed := round1 avgWindSpeed
        direction := jsRound avgWindDirection
        directionText := getWindDirection avgWindDirection }
    humidity := jsRound avgHumidity
    pressure := jsRound avgPressure
    cloudCover := jsRound avgCloudCover
    fetchedAt := fetchedAt }

/-! ### Point-geometry parsing

`fetchWeatherForEdition` extracts coordinates with the JS regex
`locationStr.match(/POINT\(([0-9.-]+)\s+([0-9.-]+)\)/)` followed by
`parseFloat` on each capture.  The regex is *unanchored* (`String.match`
finds the pattern anywhere in the string) and its two captures range over
the character class `[0-9.-]` — not over well-formed decimals.  Because the
three classes involved (`[0-9.-]`, `\s`, the literal `)`) are pairwise
disjoint, the backtracking search is deterministic: at a given start
position the pattern matches iff the text is `POINT(`, a maximal non-empty
run of `[0-9.-]`, a maximal non-empty run of whitespace, a maximal
non-empty run of `[0-9.-]`, then `)`; the captures are the two runs.  The
engine scans start positions left to right. -/

/-- Characters of the regex class `[0-9.-]`. -/
def pointChar (c : Char) : Bool := c.isDigit || c == '.' || c == '-'

/-- Characters of the regex class `\s` (the whitespace characters relevant
to this embedding; the full JS class additionally contains exotic Unicode
spaces that never occur in the strings at issue). -/
def wsChar (c : Char) : Bool := c == ' ' || c == '\t' || c == '\n' || c == '\r'

/-- Strip a literal prefix (the `POINT(` literal of the regex), or fail. -/
def stripLit : List Char → List Char → Option (List Char)
  | [], l => some l
  | c :: cs, x :: xs => if c == x then stripLit cs xs else none
  | _ :: _, [] => none

/-- Try the regex `POINT\(([0-9.-]+)\s+([0-9.-]+)\)` at the start of `l`;
on success return the two captured runs. -/
def matchPointAt (l : List Char) : Option (List Char × List Char) :=
  match stripLit "POINT(".data l with
  | none => none
  | some rest =>
    let s1 := rest.span pointChar
    if s1.1.isEmpty then none
    else
      let s2 := s1.2.span wsChar
      if s2.1.isEmpty then none
      else
        let s3 := s2.2.span pointChar
        if s3.1.isEmpty then none
        else
          match s3.2 with
          | ')' :: _ => some (s1.1, s3.1)
          | _ => none

/-- `String.match` semantics: first start position (left to right) where
the pattern matches. -/
def searchPoint : List Char → Option (List Char × List Char)
  | [] => none
  | c :: rest =>
    match matchPointAt (c :: rest) with
    | some r => some r
    | none => searchPoint rest

/-- Digit run to a natural number. -/
def digitsVal (l : List Char) : ℕ :=
  l.foldl (fun acc c => 10 * acc + (c.toNat - '0'.toNat)) 0

/-- JS `parseFloat`, restricted to the inputs it receives here (captures
over the alphabet `[0-9.-]`, which cannot contain an exponent marker):
optional sign, longest digit run, optional `.` plus longest digit run;
everything after that prefix is ignored; `NaN` (no digits at all) is
modelled as `none`. -/
def jsParseFloat (s : List Char) : Option ℚ :=
  let signRest : ℚ × List Char :=
    match s with
    | '-' :: t => (-1, t)
    | '+' :: t => (1, t)
    | t => (1, t)
  let ip := signRest.2.span Char.isDigit
  let fp : List Char :=
    match ip.2 with
    | '.' :: t => (t.span Char.isDigit).1
    | _ => []
  if ip.1.isEmpty && fp.isEmpty then none
  else some (signRest.1 * ((digitsVal ip.1 : ℚ) + (digitsVal fp : ℚ) / 10 ^ fp.length))

/-- `AppError(message, statusCode)` of `src/utils/errors`. -/
structure AppError where
  message : String
  statusCode : ℤ
deriving DecidableEq, Repr

/-- The edition-location branch of the coordinate extraction in
`fetchWeatherForEdition` (the GeoPointParser of the spec): regex search,
then `parseFloat` of the captures `(longitude, latitude)`; on no match,
`AppError('Invalid edition location format', 500)`. -/
def extractCoordinates (s : String) : Except AppError (Option ℚ × Option ℚ) :=
  match searchPoint s.data with
  | some (g1, g2) => .ok (jsParseFloat g1, jsParseFloat g2)
  | none => .error ⟨"Invalid edition location format", 500⟩

/-! ### Edition weather service orchestration -/

/-- The parent event, as far as this pipeline reads it. -/
structure Event where
  location : Option String
deriving DecidableEq, Repr

/-- The edition's competition, which carries the parent event. -/
structure CompetitionWithEvent where
  event : Event
deriving DecidableEq, Repr

/-- An edition record, restricted to the fields `fetchWeatherForEdition`
reads and writes.  `startDate` is an abstract timestamp: the source only
compares it with `now` and formats it for the API request. -/
structure Edition where
  startDate : ℤ
  location : Option String
  weather : Option EditionWeather
  weatherFetched : Bool
  competition : CompetitionWithEvent
deriving DecidableEq, Repr

/-- Observable outcome of one `fetchWeatherForEdition` invocation.
`result` is the value returned / error thrown; a successful result carries
the updated edition exactly as persisted (`weather` set, `weatherFetched =
true`).  `locationParsed` records whether a location string was run
through the regex, `coordsUsed` the `(longitude, latitude)` pair passed to
the external API (if any), and `apiCalled` whether the external call
happened at all. -/
instance {ε α : Type} [DecidableEq ε] [DecidableEq α] : DecidableEq (Except ε α) := fun a b =>
  match a, b with
  | .error e, .error f =>
    if h : e = f then .isTrue (by rw [h]) else .isFalse (by intro hc; cases hc; exact h rfl)
  | .ok x, .ok y =>
    if h : x = y then .isTrue (by rw [h]) else .isFalse (by intro hc; cases hc; exact h rfl)
  | .error _, .ok _ => .isFalse (by intro hc; cases hc)
  | .ok _, .error _ => .isFalse (by intro hc; cases hc)

structure FetchOutcome where
  result : Except AppError (Edition × EditionWeather)
  locationParsed : Bool
  coordsUsed : Option (Option ℚ × Option ℚ)
  apiCalled : Bool
deriving DecidableEq, Repr

/-- The tail of `fetchWeatherForEdition` once coordinates are known: call
the external API (`getHistoricalWeather`, abstracted as the `api`
argument, which receives latitude, longitude and the edition's start
date), then persist `weather` and `weatherFetched = true` on success. -/
def runFetch (api : Option ℚ → Option ℚ → ℤ → Except AppError EditionWeather)
    (edition : Edition) (longitude latitude : Option ℚ) : FetchOutcome :=
  match api latitude longitude edition.startDate with
  | .error e =>
    { result := .error e
      locationParsed := true
      coordsUsed := some (longitude, latitude)
      apiCalled := true }
  | .ok weather =>
    { result := .ok ({ edition with weather := some weather, weatherFetched := true }, weather)
      locationParsed := true
      coordsUsed := some (longitude, latitude)
      apiCalled := true }

/-- `WeatherService.fetchWeatherForEdition(editionId, force)`.  The edition
lookup is abstracted as an `Option Edition` argument (`none` = the id does
not resolve); `now` is the clock reading of `new Date()`; `api` abstracts
the HTTP call of `getHistoricalWeather` (the source formats
`edition.startDate` as `YYYY-MM-DD` before the call — pure formatting that
none of the claims depend on, so the raw timestamp is passed through).
The guard order, error messages/status codes, coordinate fallback and
write-back mirror the source line by line. -/
def fetchWeatherForEdition (api : Option ℚ → Option ℚ → ℤ → Except AppError EditionWeather)
    (now : ℤ) (editionOpt : Option Edition) (force : Bool) : FetchOutcome :=
  match editionOpt with
  | none =>
    { result := .error ⟨"Edition not found", 404⟩
      locationParsed := false, coordsUsed := none, apiCalled := false }
  | some edition =>
    if edition.weatherFetched && !force then
      { result := .error ⟨"Weather data already fetched. Use force=true to refetch.", 400⟩
        locationParsed := false, coordsUsed := none, apiCalled := false }
    else if now < edition.startDate then
      { result := .error ⟨"Cannot fetch weather for future editions", 400⟩
        locationParsed := false, coordsUsed := none, apiCalled := false }
    else
      match edition.location with
      | some locStr =>
        match searchPoint locStr.data with
        | some (g1, g2) => runFetch api edition (jsParseFloat g1) (jsParseFloat g2)
        | none =>
          { result := .error ⟨"Invalid edition location format", 500⟩
            locationParsed := true, coordsUsed := none, apiCalled := false }
      | none =>
        match edition.competition.event.location with
        | some locStr =>
          match searchPoint locStr.data with
          | some (g1, g2) => runFetch api edition (jsParseFloat g1) (jsParseFloat g2)
          | none =>
            { result := .error ⟨"Invalid event location format", 500⟩
              locationParsed := true, coordsUsed := none, apiCalled := false }
        | none =>
          { result := .error ⟨"No location data available for this edition", 400⟩
            locationParsed := false, coordsUsed := none, apiCalled := false }

/-! ### Competition admin service (`competition-admin.service.ts`)

`throw new Error(msg)` is modelled as `Except.error msg`; the Prisma
`update` call is modelled as returning the updated record.  Cache
invalidation and logging have no effect on the record and are omitted. -/

/-- The `CompetitionStatus` Prisma enum (the values this service uses). -/
inductive CompetitionStatus
  | DRAFT
  | PUBLISHED
  | CANCELLED
deriving DecidableEq, Repr

/-- A competition record, restricted to the fields this service reads or
writes, plus representative untouched fields for frame reasoning. -/
structure Competition where
  id : String
  name : String
  description : String
  status : CompetitionStatus
  organizerId : String
  createdAt : ℤ
deriving DecidableEq, Repr

/-- Body of an approve request. -/
structure ApproveCompetitionData where
  adminNotes : Option String
deriving DecidableEq, Repr

/-- Body of a reject request. -/
structure RejectCompetitionData where
  rejectionReason : String
deriving DecidableEq, Repr

/-- `CompetitionAdminService.approveCompetition`: requires the competition
to exist and be `DRAFT`; sets status to `PUBLISHED` and, when admin notes
are present and non-empty (JS truthiness of `data?.adminNotes`), appends
them to the description. -/
def approveCompetition (competitionOpt : Option Competition)
    (data : Option ApproveCompetitionData) : Except String Competition :=
  match competitionOpt with
  | none => .error "Competition not found"
  | some competition =>
    if competition.status ≠ CompetitionStatus.DRAFT then
      .error "Only DRAFT competitions can be approved"
    else
      let newDescription :=
        match data with
        | some d =>
          match d.adminNotes with
          | some notes =>
            if notes = "" then competition.description
            else competition.description ++ "\n\n---\nNotas admin: " ++ notes
          | none => competition.description
        | none => competition.description
      .ok { competition with
              status := CompetitionStatus.PUBLISHED
              description := newDescription }

/-- `CompetitionAdminService.rejectCompetition`: requires the competition
to exist and be `DRAFT`; appends the rejection reason to the description
and changes nothing else (in particular the status stays `DRAFT`). -/
def rejectCompetition (competitionOpt : Option Competition)
    (data : RejectCompetitionData) : Except String Competition :=
  match competitionOpt with
  | none => .error "Competition not found"
  | some competition =>
    if competition.status ≠ CompetitionStatus.DRAFT then
      .error "Only DRAFT competitions can be rejected"
    else
      .ok { competition with
              description := competition.description ++
                "\n\n---\n⚠️ RECHAZADA: " ++ data.rejectionReason }

/-- `CompetitionAdminService.updateCompetitionStatus`: requires only
existence; unconditionally writes the requested status. -/
def updateCompetitionStatus (competitionOpt : Option Competition)
    (newStatus : CompetitionStatus) : Except String Competition :=
  match competitionOpt with
  | none => .error "Competition not found"
  | some competition => .ok { competition with status := newStatus }

/-! ### Helper lemmas -/

theorem foldl_min_le_init (xs : List ℚ) (a : ℚ) : xs.foldl min a ≤ a := by
  induction xs generalizing a with
  | nil => simp
  | cons x xs ih =>
    show xs.foldl min (min a x) ≤ a
    exact le_trans (ih (min a x)) (min_le_left a x)

theorem foldl_min_le_mem {x : ℚ} : ∀ {xs : List ℚ}, x ∈ xs → ∀ a : ℚ, xs.foldl min a ≤ x := by
  intro xs hx
  induction hx with
  | head ys =>
    intro a
    show ys.foldl min (min a x) ≤ x
    exact le_trans (foldl_min_le_init ys (min a x)) (min_le_right a x)
  | tail y hmem ih =>
    intro a
    exact ih (min a y)

theorem listMin_le {l : List ℚ} {x : ℚ} (hx : x ∈ l) : listMin l ≤ x := by
  match l, hx with
  | y :: ys, hx =>
    rcases List.mem_cons.mp hx with rfl | h
    · exact foldl_min_le_init ys x
    · exact foldl_min_le_mem h y

theorem init_le_foldl_max (xs : List ℚ) (a : ℚ) : a ≤ xs.foldl max a := by
  induction xs generalizing a with
  | nil => simp
  | cons x xs ih =>
    show a ≤ xs.foldl max (max a x)
    exact le_trans (le_max_left a x) (ih (max a x))

theorem mem_le_foldl_max {x : ℚ} : ∀ {xs : List ℚ}, x ∈ xs → ∀ a : ℚ, x ≤ xs.foldl max a := by
  intro xs hx
  induction hx with
  | head ys =>
    intro a
    show x ≤ ys.foldl max (max a x)
    exact le_trans (le_max_right a x) (init_le_foldl_max ys (max a x))
  | tail y hmem ih =>
    intro a
    exact ih (max a y)

theorem le_listMax {l : List ℚ} {x : ℚ} (hx : x ∈ l) : x ≤ listMax l := by
  match l, hx with
  | y :: ys, hx =>
    rcases List.mem_cons.mp hx with rfl | h
    · exact init_le_foldl_max ys x
    · exact mem_le_foldl_max h y

theorem length_mul_le_sum (l : List ℚ) (m : ℚ) (h : ∀ x ∈ l, m ≤ x) :
    (l.length : ℚ) * m ≤ l.sum := by
  induction l with
  | nil => simp
  | cons x xs ih =>
    have hx : m ≤ x := h x (List.mem_cons_self x xs)
    have hxs := ih (fun y hy => h y (List.mem_cons_of_mem x hy))
    simp only [List.length_cons, List.sum_cons]
    push_cast
    linarith

theorem sum_le_length_mul (l : List ℚ) (m : ℚ) (h : ∀ x ∈ l, x ≤ m) :
    l.sum ≤ (l.length : ℚ) * m := by
  induction l with
  | nil => simp
  | cons x xs ih =>
    have hx : x ≤ m := h x (List.mem_cons_self x xs)
    have hxs := ih (fun y hy => h y (List.mem_cons_of_mem x hy))
    simp only [List.length_cons, List.sum_cons]
    push_cast
    linarith

theorem listMin_le_mean (l : List ℚ) (hl : l ≠ []) : listMin l ≤ l.sum / (l.length : ℚ) := by
  have hlen : 0 < (l.length : ℚ) := by
    exact_mod_cast List.length_pos.mpr hl
  rw [le_div_iff₀ hlen]
  have := length_mul_le_sum l (listMin l) (fun x hx => listMin_le hx)
  linarith

theorem mean_le_listMax (l : List ℚ) (hl : l ≠ []) : l.sum / (l.length : ℚ) ≤ listMax l := by
  have hlen : 0 < (l.length : ℚ) := by
    exact_mod_cast List.length_pos.mpr hl
  rw [div_le_iff₀ hlen]
  have := sum_le_length_mul l (listMax l) (fun x hx => le_listMax hx)
  linarith

theorem round1_mono {a b : ℚ} (h : a ≤ b) : round1 a ≤ round1 b := by
  unfold round1 jsRound
  have hf : (⌊a * 10 + 1/2⌋ : ℤ) ≤ ⌊b * 10 + 1/2⌋ := Int.floor_le_floor (by linarith)
  have h10 : (0 : ℚ) < 10 := by norm_num
  exact (div_le_div_iff_of_pos_right h10).mpr (by exact_mod_cast hf)

theorem calculateAverage_eq (values : List (Option ℚ)) (hne : values.filterMap id ≠ []) :
    calculateAverage values = (values.filterMap id).sum / ((values.filterMap id).length : ℚ) := by
  unfold calculateAverage
  rw [if_neg (fun h => hne (List.length_eq_zero.mp h))]

theorem calculateAverage_allNull (values : List (Option ℚ)) (h : ∀ x ∈ values, x = none) :
    calculateAverage values = 0 := by
  unfold calculateAverage
  have hnil : values.filterMap id = [] := by
    rw [List.filterMap_eq_nil_iff]
    intro a ha
    simpa using h a ha
  simp [hnil]

/-! ### Claim theorems -/

theorem determineCondition_rainy_of (p c : ℚ) (hp : 10 < p) :
    determineCondition p c = ⟨"rainy", "Lluvioso"⟩ := by
  unfold determineCondition
  rw [if_pos hp]

/-- C1: the condition classifier is total over the five code/text pairs and
evaluates its thresholds in strict priority order — the result is `rainy`
iff precipitation > 10, `light_rain` iff precipitation ∈ (0, 10],
`cloudy` iff precipitation ≤ 0 and cloud cover > 75, `partly_cloudy` iff
precipitation ≤ 0 and cloud cover ∈ (30, 75], and `sunny` otherwise; in
particular precipitation 15 yields `rainy` for every cloud-cover value
(hence also at 50%). -/
theorem determineCondition_spec (precipitation cloudCover : ℚ) :
    determineCondition precipitation cloudCover ∈
      ([⟨"rainy", "Lluvioso"⟩, ⟨"light_rain", "Lluvia ligera"⟩, ⟨"cloudy", "Nublado"⟩,
        ⟨"partly_cloudy", "Parcialmente nublado"⟩, ⟨"sunny", "Soleado"⟩] : List ConditionResult)
  ∧ (determineCondition precipitation cloudCover = ⟨"rainy", "Lluvioso"⟩ ↔ 10 < precipitation)
  ∧ (determineCondition precipitation cloudCover = ⟨"light_rain", "Lluvia ligera"⟩ ↔
       precipitation ≤ 10 ∧ 0 < precipitation)
  ∧ (determineCondition precipitation cloudCover = ⟨"cloudy", "Nublado"⟩ ↔
       precipitation ≤ 0 ∧ 75 < cloudCover)
  ∧ (determineCondition precipitation cloudCover = ⟨"partly_cloudy", "Parcialmente nublado"⟩ ↔
       precipitation ≤ 0 ∧ cloudCover ≤ 75 ∧ 30 < cloudCover)
  ∧ (determineCondition precipitation cloudCover = ⟨"sunny", "Soleado"⟩ ↔
       precipitation ≤ 0 ∧ cloudCover ≤ 30)
  ∧ determineCondition 15 cloudCover = ⟨"rainy", "Lluvioso"⟩ := by
  have h15 : determineCondition 15 cloudCover = ⟨"rainy", "Lluvioso"⟩ :=
    determineCondition_rainy_of 15 cloudCover (by norm_num)
  have hmain :
      determineCondition precipitation cloudCover ∈
        ([⟨"rainy", "Lluvioso"⟩, ⟨"light_rain", "Lluvia ligera"⟩, ⟨"cloudy", "Nublado"⟩,
          ⟨"partly_cloudy", "Parcialmente nublado"⟩, ⟨"sunny", "Soleado"⟩] : List ConditionResult)
    ∧ (determineCondition precipitation cloudCover = ⟨"rainy", "Lluvioso"⟩ ↔ 10 < precipitation)
    ∧ (determineCondition precipitation cloudCover = ⟨"light_rain", "Lluvia ligera"⟩ ↔
         precipitation ≤ 10 ∧ 0 < precipitation)
    ∧ (determineCondition precipitation cloudCover = ⟨"cloudy", "Nublado"⟩ ↔
         precipitation ≤ 0 ∧ 75 < cloudCover)
    ∧ (determineCondition precipitation cloudCover = ⟨"partly_cloudy", "Parcialmente nublado"⟩ ↔
         precipitation ≤ 0 ∧ cloudCover ≤ 75 ∧ 30 < cloudCover)
    ∧ (determineCondition precipitation cloudCover = ⟨"sunny", "Soleado"⟩ ↔
         precipitation ≤ 0 ∧ cloudCover ≤ 30) := by
    unfold determineCondition
    split_ifs with h1 h2 h3 h4
    · exact ⟨by decide, iff_of_true rfl h1,
        iff_of_false (by decide) (by rintro ⟨ha, _⟩; linarith),
        iff_of_false (by decide) (by rintro ⟨ha, _⟩; linarith),
        iff_of_false (by decide) (by rintro ⟨ha, _, _⟩; linarith),
        iff_of_false (by decide) (by rintro ⟨ha, _⟩; linarith)⟩
    · exact ⟨by decide, iff_of_false (by decide) h1,
        iff_of_true rfl ⟨le_of_not_lt h1, h2⟩,
        iff_of_false (by decide) (by rintro ⟨ha, _⟩; linarith),
        iff_of_false (by decide) (by rintro ⟨ha, _, _⟩; linarith),
        iff_of_false (by decide) (by rintro ⟨ha, _⟩; linarith)⟩
    · exact ⟨by decide, iff_of_false (by decide) h1,
        iff_of_false (by decide) (by rintro ⟨_, hb⟩; exact h2 hb),
        iff_of_true rfl ⟨le_of_not_lt h2, h3⟩,
        iff_of_false (by decide) (by rintro ⟨_, hb, _⟩; linarith),
        iff_of_false (by decide) (by rintro ⟨_, hb⟩; linarith)⟩
    · exact ⟨by decide, iff_of_false (by decide) h1,
        iff_of_false (by decide) (by rintro ⟨_, hb⟩; exact h2 hb),
        iff_of_false (by decide) (by rintro ⟨_, hb⟩; exact h3 hb),
        iff_of_true rfl ⟨le_of_not_lt h2, le_of_not_lt h3, h4⟩,
        iff_of_false (by decide) (by rintro ⟨_, hb⟩; linarith)⟩
    · exact ⟨by decide, iff_of_false (by decide) h1,
        iff_of_false (by decide) (by rintro ⟨_, hb⟩; exact h2 hb),
        iff_of_false (by decide) (by rintro ⟨_, hb⟩; exact h3 hb),
        iff_of_false (by decide) (by rintro ⟨_, _, hc⟩; exact h4 hc),
        iff_of_true rfl ⟨le_of_not_lt h2, le_of_not_lt h4⟩⟩
  exact ⟨hmain.1, hmain.2.1, hmain.2.2.1, hmain.2.2.2.1, hmain.2.2.2.2.1, hmain.2.2.2.2.2, h15⟩

/-- Witness for C1 at precipitation 15mm, cloud cover 50%. -/
theorem determineCondition_spec_witness :
    determineCondition 15 50 = ⟨"rainy", "Lluvioso"⟩ :=
  (determineCondition_spec 15 50).2.2.2.2.2.2

/-- C2: `calculateAverage` of a series with at least one non-null entry is
the arithmetic mean of the non-null entries; an all-null (or empty) series
averages to 0. -/
theorem calculateAverage_spec (series : List (Option ℚ)) :
    ((∃ x ∈ series, x ≠ none) →
        calculateAverage series =
          (series.filterMap id).sum / ((series.filterMap id).length : ℚ))
  ∧ ((∀ x ∈ series, x = none) → calculateAverage series = 0) := by
  constructor
  · rintro ⟨x, hx, hxne⟩
    refine calculateAverage_eq series ?_
    intro hnil
    exact hxne (by simpa using (List.filterMap_eq_nil_iff.mp hnil) x hx)
  · exact calculateAverage_allNull series

/-- Witness for C2: `[1, null, 3]` averages to its non-null mean and
`[null, null]` averages to 0. -/
theorem calculateAverage_spec_witness :
    calculateAverage [some 1, none, some 3] =
      (([some 1, none, some 3] : List (Option ℚ)).filterMap id).sum /
        ((([some 1, none, some 3] : List (Option ℚ)).filterMap id).length : ℚ)
  ∧ calculateAverage ([none, none] : List (Option ℚ)) = 0 :=
  ⟨(calculateAverage_spec _).1 ⟨some 1, by simp, by simp⟩,
   (calculateAverage_spec _).2 (by simp)⟩

/-- C3: whenever the temperature series has a non-null entry, the
aggregated summary satisfies `temperature.min ≤ temperature.avg ≤
temperature.max`: all three are computed from the same null-filtered
sample and rounded with the same monotone one-decimal rounding. -/
theorem aggregateHourly_temperature_bounds (hourly : HourlyData) (date fetchedAt : String)
    (hne : hourly.temperature_2m.filterMap id ≠ []) :
    (aggregateHourly hourly date fetchedAt).temperature.min ≤
        (aggregateHourly hourly date fetchedAt).temperature.avg
  ∧ (aggregateHourly hourly date fetchedAt).temperature.avg ≤
        (aggregateHourly hourly date fetchedAt).temperature.max := by
  have havg : calculateAverage hourly.temperature_2m =
      (hourly.temperature_2m.filterMap id).sum /
        ((hourly.temperature_2m.filterMap id).length : ℚ) :=
    calculateAverage_eq _ hne
  constructor
  · show round1 (listMin (hourly.temperature_2m.filterMap id)) ≤
        round1 (calculateAverage hourly.temperature_2m)
    apply round1_mono
    rw [havg]
    exact listMin_le_mean _ hne
  · show round1 (calculateAverage hourly.temperature_2m) ≤
        round1 (listMax (hourly.temperature_2m.filterMap id))
    apply round1_mono
    rw [havg]
    exact mean_le_listMax _ hne

/-- A one-day hourly input used to witness C3. -/
def hourlyEx : HourlyData :=
  { temperature_2m := [some 1, none, some 2]
    relative_humidity_2m := [some 50]
    precipitation := [some 0]
    surface_pressure := [some 1000]
    cloud_cover := [some 50]
    wind_speed_10m := [some 10]
    wind_direction_10m := [some 90] }

/-- Witness for C3 on a concrete hourly input. -/
theorem aggregateHourly_temperature_bounds_witness :
    (aggregateHourly hourlyEx "2024-06-01" "t").temperature.min ≤
        (aggregateHourly hourlyEx "2024-06-01" "t").temperature.avg
  ∧ (aggregateHourly hourlyEx "2024-06-01" "t").temperature.avg ≤
        (aggregateHourly hourlyEx "2024-06-01" "t").temperature.max :=
  aggregateHourly_temperature_bounds hourlyEx "2024-06-01" "t" (by simp [hourlyEx])

/-- C4: for every (non-negative) average wind direction `d`, the compass
label is the element at index `round(d/45) mod 8` of
`[N, NE, E, SE, S, SW, W, NW]`; in particular 0°→N, 45°→NE, 90°→E,
180°→S and 360°→N (wrapping via the modulo). -/
theorem getWindDirection_spec (d : ℚ) (hd : 0 ≤ d) :
    getWindDirection d =
      ["N", "NE", "E", "SE", "S", "SW", "W", "NW"].getD ((jsRound (d / 45)).toNat % 8) "N"
  ∧ getWindDirection 0 = "N" ∧ getWindDirection 45 = "NE" ∧ getWindDirection 90 = "E"
  ∧ getWindDirection 180 = "S" ∧ getWindDirection 360 = "N" := by
  refine ⟨?_, ?_, ?_, ?_, ?_, ?_⟩
  · have hk : 0 ≤ jsRound (d / 45) := by
      unfold jsRound
      have h1 : 0 ≤ d / 45 := div_nonneg hd (by norm_num)
      exact Int.floor_nonneg.mpr (by linarith)
    obtain ⟨n, hn⟩ := Int.eq_ofNat_of_zero_le hk
    have htm : Int.tmod (jsRound (d / 45)) 8 = Int.ofNat (n % 8) := by
      rw [hn]
      rfl
    unfold getWindDirection
    rw [htm, hn]
    show (if 0 ≤ Int.ofNat (n % 8) then
            ["N", "NE", "E", "SE", "S", "SW", "W", "NW"].getD (Int.ofNat (n % 8)).toNat "undefined"
          else "undefined") =
         ["N", "NE", "E", "SE", "S", "SW", "W", "NW"].getD (n % 8) "N"
    have h0 : (0 : ℤ) ≤ Int.ofNat (n % 8) := Int.ofNat_nonneg (n % 8)
    rw [if_pos h0]
    have htn : (Int.ofNat (n % 8)).toNat = n % 8 := rfl
    rw [htn]
    have hlt : n % 8 < 8 := Nat.mod_lt n (by norm_num)
    set m := n % 8 with hm
    interval_cases m <;> rfl
  · have h : jsRound ((0 : ℚ) / 45) = 0 := by unfold jsRound; norm_num
    unfold getWindDirection
    rw [h]
    rfl
  · have h : jsRound ((45 : ℚ) / 45) = 1 := by unfold jsRound; norm_num
    unfold getWindDirection
    rw [h]
    rfl
  · have h : jsRound ((90 : ℚ) / 45) = 2 := by unfold jsRound; norm_num
    unfold getWindDirection
    rw [h]
    rfl
  · have h : jsRound ((180 : ℚ) / 45) = 4 := by unfold jsRound; norm_num
    unfold getWindDirection
    rw [h]
    rfl
  · have h : jsRound ((360 : ℚ) / 45) = 8 := by unfold jsRound; norm_num
    unfold getWindDirection
    rw [h]
    rfl

/-- Witness for C4 at 360°, which wraps to N. -/
theorem getWindDirection_spec_witness :
    getWindDirection 360 =
      ["N", "NE", "E", "SE", "S", "SW", "W", "NW"].getD ((jsRound ((360 : ℚ) / 45)).toNat % 8) "N" :=
  (getWindDirection_spec 360 (by norm_num)).1

theorem runFetch_coordsUsed (api : Option ℚ → Option ℚ → ℤ → Except AppError EditionWeather)
    (e : Edition) (lon lat : Option ℚ) :
    (runFetch api e lon lat).coordsUsed = some (lon, lat) := by
  cases h : api lat lon e.startDate <;> simp [runFetch, h]

/-- C5: with `weatherFetched = true` and `force = false`,
`fetchWeatherForEdition` fails with the already-fetched error (message
`'Weather data already fetched. Use force=true to refetch.'`, 400): the
outcome holds for every external-API behaviour `api`, no location string
is parsed, no external call is made, and the result carries no updated
edition — so the stored `weather`/`weatherFetched` fields are not
written. -/
theorem fetchWeather_alreadyFetched
    (api : Option ℚ → Option ℚ → ℤ → Except AppError EditionWeather)
    (now : ℤ) (e : Edition) (h : e.weatherFetched = true) :
    fetchWeatherForEdition api now (some e) false =
      { result := .error ⟨"Weather data already fetched. Use force=true to refetch.", 400⟩
        locationParsed := false, coordsUsed := none, apiCalled := false } := by
  simp [fetchWeatherForEdition, h]

/-- An already-fetched edition used to witness C5. -/
def alreadyFetchedEdition : Edition :=
  { startDate := 0, location := none, weather := none, weatherFetched := true
    competition := { event := { location := none } } }

/-- Witness for C5 on a concrete already-fetched edition. -/
theorem fetchWeather_alreadyFetched_witness :
    fetchWeatherForEdition (fun _ _ _ => .error ⟨"unused", 500⟩) 0 (some alreadyFetchedEdition) false =
      { result := .error ⟨"Weather data already fetched. Use force=true to refetch.", 400⟩
        locationParsed := false, coordsUsed := none, apiCalled := false } :=
  fetchWeather_alreadyFetched _ 0 alreadyFetchedEdition rfl

/-- A future-dated edition whose weather flag is already set; it exercises
the guard ordering of C6. -/
def futureFetchedEdition : Edition :=
  { startDate := 100, location := none, weather := none, weatherFetched := true
    competition := { event := { location := none } } }

/-- C6 counterexample: an edition whose `startDate` (100) is strictly after
`now` (0) but whose `weatherFetched` flag is set fails with the
already-fetched error, not the future-date error, because the
already-fetched guard runs first — refuting the claim that a future
`startDate` always produces `FutureDateError`. -/
theorem fetchWeather_futureDate_counterexample :
    (0 : ℤ) < futureFetchedEdition.startDate
  ∧ (fetchWeatherForEdition (fun _ _ _ => .error ⟨"unused", 500⟩) 0
        (some futureFetchedEdition) false).result
      = .error ⟨"Weather data already fetched. Use force=true to refetch.", 400⟩
  ∧ (⟨"Weather data already fetched. Use force=true to refetch.", 400⟩ : AppError)
      ≠ ⟨"Cannot fetch weather for future editions", 400⟩ :=
  ⟨by decide, rfl, by decide⟩

/-- C6 (amended): for every edition that passes the idempotency guard
(`weatherFetched = false` or `force = true`) and whose `startDate` is
strictly in the future, `fetchWeatherForEdition` fails with the
future-date error (message `'Cannot fetch weather for future editions'`,
400) before any coordinate resolution: no location string is parsed and
no external call is made, for every external-API behaviour. -/
theorem fetchWeather_futureDate
    (api : Option ℚ → Option ℚ → ℤ → Except AppError EditionWeather)
    (now : ℤ) (e : Edition) (force : Bool)
    (hpre : e.weatherFetched = false ∨ force = true) (hfut : now < e.startDate) :
    fetchWeatherForEdition api now (some e) force =
      { result := .error ⟨"Cannot fetch weather for future editions", 400⟩
        locationParsed := false, coordsUsed := none, apiCalled := false } := by
  rcases hpre with h | h <;> simp [fetchWeatherForEdition, h, hfut]

/-- A future-dated, not-yet-fetched edition used to witness amended C6. -/
def futureUnfetchedEdition : Edition :=
  { startDate := 10, location := none, weather := none, weatherFetched := false
    competition := { event := { location := none } } }

/-- Witness for amended C6 on a concrete future-dated edition. -/
theorem fetchWeather_futureDate_witness :
    fetchWeatherForEdition (fun _ _ _ => .error ⟨"unused", 500⟩) 0 (some futureUnfetchedEdition) false =
      { result := .error ⟨"Cannot fetch weather for future editions", 400⟩
        locationParsed := false, coordsUsed := none, apiCalled := false } :=
  fetchWeather_futureDate _ 0 futureUnfetchedEdition false (Or.inl rfl) (by decide)

/-- C7: once the idempotency and date guards pass, coordinates resolve
from the edition's own location when present (even a malformed own
location is used — it raises the edition-format error rather than falling
back), else from the parent event's location, else the operation fails
with the no-location error (message
`'No location data available for this edition'`, 400) without parsing or
calling out. -/
theorem fetchWeather_location_resolution
    (api : Option ℚ → Option ℚ → ℤ → Except AppError EditionWeather)
    (now : ℤ) (e : Edition) (force : Bool)
    (hpre : e.weatherFetched = false ∨ force = true) (hdate : e.startDate ≤ now) :
    (∀ (s : String) (g1 g2 : List Char), e.location = some s →
        searchPoint s.data = some (g1, g2) →
        (fetchWeatherForEdition api now (some e) force).coordsUsed =
          some (jsParseFloat g1, jsParseFloat g2))
  ∧ (∀ (s : String) (g1 g2 : List Char), e.location = none →
        e.competition.event.location = some s → searchPoint s.data = some (g1, g2) →
        (fetchWeatherForEdition api now (some e) force).coordsUsed =
          some (jsParseFloat g1, jsParseFloat g2))
  ∧ (e.location = none → e.competition.event.location = none →
        fetchWeatherForEdition api now (some e) force =
          { result := .error ⟨"No location data available for this edition", 400⟩
            locationParsed := false, coordsUsed := none, apiCalled := false })
  ∧ (∀ s : String, e.location = some s → searchPoint s.data = none →
        fetchWeatherForEdition api now (some e) force =
          { result := .error ⟨"Invalid edition location format", 500⟩
            locationParsed := true, coordsUsed := none, apiCalled := false }) := by
  have hguard : (e.weatherFetched && !force) = false := by
    rcases hpre with h | h <;> simp [h]
  have hnl := not_lt.mpr hdate
  refine ⟨?_, ?_, ?_, ?_⟩
  · intro s g1 g2 hloc hsp
    simp only [fetchWeatherForEdition, hguard, hloc, hsp]
    simp [hnl]
    exact runFetch_coordsUsed api e (jsParseFloat g1) (jsParseFloat g2)
  · intro s g1 g2 hloc hev hsp
    simp only [fetchWeatherForEdition, hguard, hloc, hev, hsp]
    simp [hnl]
    exact runFetch_coordsUsed api e (jsParseFloat g1) (jsParseFloat g2)
  · intro hloc hev
    simp [fetchWeatherForEdition, hguard, hloc, hev, hnl]
  · intro s hloc hsp
    simp [fetchWeatherForEdition, hguard, hloc, hsp, hnl]

/-- A past edition whose own location is a well-formed point; it witnesses
C7. -/
def locatedEdition : Edition :=
  { startDate := 0, location := some "POINT(-3.7038 40.4168)", weather := none
    weatherFetched := false, competition := { event := { location := none } } }

/-- Witness for C7: the edition's own location is the one parsed and
passed to the external API. -/
theorem fetchWeather_location_resolution_witness :
    (fetchWeatherForEdition (fun _ _ _ => .error ⟨"unused", 500⟩) 5
        (some locatedEdition) false).coordsUsed =
      some (jsParseFloat "-3.7038".data, jsParseFloat "40.4168".data) :=
  (fetchWeather_location_resolution (fun _ _ _ => .error ⟨"unused", 500⟩) 5 locatedEdition false
      (Or.inl rfl) (by decide)).1
    "POINT(-3.7038 40.4168)" "-3.7038".data "40.4168".data rfl rfl

/-- Modelled from the spec: the spec describes the parser input as the
pattern `POINT(<lon> <lat>)` with `<lon>`/`<lat>` "signed decimal
numbers"; this predicate recognises one signed decimal number — optional
sign, non-empty digit run, optionally a decimal point followed by a
non-empty digit run.  It exists only to exhibit that the counterexample
input below is not of the claimed form. -/
def isSignedDecimal (s : List Char) : Bool :=
  let rest : List Char :=
    match s with
    | '-' :: t => t
    | '+' :: t => t
    | t => t
  let ip := rest.span Char.isDigit
  match ip.2 with
  | [] => !ip.1.isEmpty
  | '.' :: t => !ip.1.isEmpty && !t.isEmpty && t.all Char.isDigit
  | _ => false

/-- C8 counterexample: `"POINT(1.2.3 4)"` is not of the claimed shape —
its first coordinate token `1.2.3` is not a signed decimal number — yet
extraction does not fail with the location-format error: the regex class
`[0-9.-]` accepts `1.2.3`, and `parseFloat` prefix-parses it to `1.2`, so
the code returns the best-effort pair `(1.2, 4)`. -/
theorem extractCoordinates_counterexample :
    isSignedDecimal "1.2.3".data = false
  ∧ extractCoordinates "POINT(1.2.3 4)" = .ok (some (6 / 5 : ℚ), some (4 : ℚ))
  ∧ extractCoordinates "POINT(1.2.3 4)" ≠ .error ⟨"Invalid edition location format", 500⟩ := by
  have h : searchPoint "POINT(1.2.3 4)".data = some ("1.2.3".data, "4".data) := rfl
  have h1 : jsParseFloat "1.2.3".data =
      some ((1 : ℚ) * (((1 : ℕ) : ℚ) + ((2 : ℕ) : ℚ) / 10 ^ 1)) := rfl
  have h2 : jsParseFloat "4".data =
      some ((1 : ℚ) * (((4 : ℕ) : ℚ) + ((0 : ℕ) : ℚ) / 10 ^ 0)) := rfl
  refine ⟨rfl, ?_, ?_⟩
  · simp only [extractCoordinates, h, h1, h2]
    norm_num
  · simp [extractCoordinates, h]

/-- C8 (amended): extraction fails with the location-format error exactly
when the code's point pattern (the substring `POINT(`, a non-empty run of
`[0-9.-]`, whitespace, another non-empty run, then `)`) occurs nowhere in
the string; when the pattern occurs, the two captured runs are handed to
`parseFloat`, which on well-formed signed decimals recovers them exactly —
in particular `"POINT(-3.7038 40.4168)"` yields longitude `-3.7038` and
latitude `40.4168`. -/
theorem extractCoordinates_spec :
    (∀ s : String,
        extractCoordinates s = .error ⟨"Invalid edition location format", 500⟩ ↔
          searchPoint s.data = none)
  ∧ extractCoordinates "POINT(-3.7038 40.4168)" =
      .ok (some (-(37038 / 10000 : ℚ)), some (404168 / 10000 : ℚ)) := by
  constructor
  · intro s
    cases h : searchPoint s.data with
    | none => simp [extractCoordinates, h]
    | some r =>
      obtain ⟨g1, g2⟩ := r
      simp [extractCoordinates, h]
  · have h : searchPoint "POINT(-3.7038 40.4168)".data =
        some ("-3.7038".data, "40.4168".data) := rfl
    have h1 : jsParseFloat "-3.7038".data =
        some ((-1 : ℚ) * (((3 : ℕ) : ℚ) + ((7038 : ℕ) : ℚ) / 10 ^ 4)) := rfl
    have h2 : jsParseFloat "40.4168".data =
        some ((1 : ℚ) * (((40 : ℕ) : ℚ) + ((4168 : ℕ) : ℚ) / 10 ^ 4)) := rfl
    simp only [extractCoordinates, h, h1, h2]
    norm_num

/-- Witness for amended C8: a string with no point pattern fails with the
location-format error. -/
theorem extractCoordinates_spec_witness :
    extractCoordinates "no point here" = .error ⟨"Invalid edition location format", 500⟩ :=
  (extractCoordinates_spec.1 "no point here").mpr rfl

/-- C9: rejecting a DRAFT competition succeeds, keeps the status DRAFT,
and changes only the description, to which the rejection marker and
reason are appended; the identity, name, organizer and creation fields of
the returned record are those of the input. -/
theorem rejectCompetition_frame (c : Competition) (d : RejectCompetitionData)
    (h : c.status = CompetitionStatus.DRAFT) :
    rejectCompetition (some c) d =
      .ok { c with
              description := c.description ++ "\n\n---\n⚠️ RECHAZADA: " ++ d.rejectionReason }
  ∧ ∀ cc : Competition,
      rejectCompetition (some c) d = .ok cc →
        cc.status = CompetitionStatus.DRAFT ∧ cc.id = c.id ∧ cc.name = c.name
        ∧ cc.organizerId = c.organizerId ∧ cc.createdAt = c.createdAt := by
  have hr : rejectCompetition (some c) d =
      .ok { c with
              description := c.description ++ "\n\n---\n⚠️ RECHAZADA: " ++ d.rejectionReason } := by
    simp [rejectCompetition, h]
  refine ⟨hr, ?_⟩
  intro cc hcc
  rw [hr] at hcc
  injection hcc with h2
  subst h2
  exact ⟨h, rfl, rfl, rfl, rfl⟩

/-- A DRAFT competition used to witness C9. -/
def draftCompetition : Competition :=
  { id := "c1", name := "Trail", description := "desc"
    status := CompetitionStatus.DRAFT, organizerId := "o1", createdAt := 0 }

/-- Witness for C9 on a concrete DRAFT competition. -/
theorem rejectCompetition_frame_witness :
    rejectCompetition (some draftCompetition) ⟨"Faltan datos"⟩ =
      .ok { draftCompetition with
              description := draftCompetition.description ++ "\n\n---\n⚠️ RECHAZADA: " ++ "Faltan datos" } :=
  (rejectCompetition_frame draftCompetition ⟨"Faltan datos"⟩ rfl).1

/-- C10: `updateCompetitionStatus` places no precondition on the current
status — every existing competition is updated to the requested status —
whereas `approveCompetition` and `rejectCompetition` fail on any
non-DRAFT competition. -/
theorem updateCompetitionStatus_unguarded :
    (∀ (c : Competition) (newStatus : CompetitionStatus),
        updateCompetitionStatus (some c) newStatus = .ok { c with status := newStatus })
  ∧ (∀ (c : Competition) (d : Option ApproveCompetitionData),
        c.status ≠ CompetitionStatus.DRAFT →
          approveCompetition (some c) d = .error "Only DRAFT competitions can be approved")
  ∧ (∀ (c : Competition) (d : RejectCompetitionData),
        c.status ≠ CompetitionStatus.DRAFT →
          rejectCompetition (some c) d = .error "Only DRAFT competitions can be rejected") := by
  refine ⟨fun c newStatus => rfl, ?_, ?_⟩
  · intro c d h
    simp [approveCompetition, h]
  · intro c d h
    simp [rejectCompetition, h]

/-- A PUBLISHED competition used to witness C10. -/
def publishedCompetition : Competition :=
  { id := "c2", name := "Trail2", description := "desc2"
    status := CompetitionStatus.PUBLISHED, organizerId := "o2", createdAt := 5 }

/-- Witness for C10: a PUBLISHED competition is freely re-statused by
`updateCompetitionStatus` but refused by approve/reject. -/
theorem updateCompetitionStatus_unguarded_witness :
    updateCompetitionStatus (some publishedCompetition) CompetitionStatus.CANCELLED =
      .ok { publishedCompetition with status := CompetitionStatus.CANCELLED }
  ∧ approveCompetition (some publishedCompetition) none =
      .error "Only DRAFT competitions can be approved"
  ∧ rejectCompetition (some publishedCompetition) ⟨"razon"⟩ =
      .error "Only DRAFT competitions can be rejected" :=
  ⟨updateCompetitionStatus_unguarded.1 publishedCompetition CompetitionStatus.CANCELLED,
   updateCompetitionStatus_unguarded.2.1 publishedCompetition none (by decide),
   updateCompetitionStatus_unguarded.2.2 publishedCompetition ⟨"razon"⟩ (by decide)⟩

end WWTrail
